import Mathlib

set_option maxHeartbeats 1000000

/-!
Shallow embedding of the invoice-pipeline stage handlers.

Sources embedded here:
- src/functions/gcp/v1/src/functions/data_extractor/main.py
  (handle_invoice_classified, _copy_to_failed_bucket)
- src/functions/gcp/v1/src/functions/invoice_classifier/main.py
  (handle_invoice_converted)
- src/functions/gcp/v1/src/shared/utils/timing.py (function_timer)

External collaborators (object store, message bus, LLM providers, the
observability sink, the URI-parsing helper, message-schema validation,
vendor classification and image-quality validation) are out of scope per
the spec and are modelled as oracle fields of an environment record: each
fallible collaborator call is an `Except Exn` value supplied by the
environment, and every call the handler issues is recorded as an `Event`
in an ordered trace.  Exceptions are identified by strings; raising is
modelled with `Except`/`Outcome.raised`.  Python floats that the handlers
only pass through (quality score, confidence) are modelled as `Rat`;
downloaded image bytes are modelled as `List Nat` (only their length is
ever used by the handlers).
-/

abbrev Exn := String

abbrev Bytes := List Nat

structure InvoiceConvertedMessage where
  source_file : String
  converted_files : List String
  page_count : Int
deriving DecidableEq

structure InvoiceClassifiedMessage where
  source_file : String
  converted_files : List String
  vendor_type : String
  quality_score : Rat
  archived_to : String
deriving DecidableEq

/-- An extracted structured invoice. Only `model_dump` (serialisation into a
generic structured value) and the identifier are visible to the handler. -/
structure Invoice where
  invoice_id : String
  fields : List (String × String)
deriving DecidableEq

/-- Serialisation of an invoice into a generic structured object
(key-value pairs); an empty list models the empty JSON object. -/
def Invoice.model_dump (inv : Invoice) : List (String × String) :=
  ("invoice_id", inv.invoice_id) :: inv.fields

/-- Result of the extraction computation (`extract_invoice`): a tagged
result, never an exception for provider-level failure. -/
structure ExtractionResult where
  success : Bool
  invoice : Option Invoice
  error : Option String
  provider : String
  latency_ms : Int
  confidence : Rat
  prompt_name : String
  prompt_version : String
deriving DecidableEq

structure InvoiceExtractedMessage where
  trace_id : String
  session_id : String
  parent_span_id : String
  source_file : String
  vendor_type : String
  extraction_model : String
  extraction_latency_ms : Int
  confidence_score : Rat
  extracted_data : List (String × String)
  prompt_name : String
  prompt_version : String
deriving DecidableEq

/-- The JSON error record the failure router writes next to the copied
file: exactly the two fields source_file and error. -/
structure ErrorRecord where
  source_file : String
  error : String
deriving DecidableEq

structure TraceContext where
  trace_id : String
  session_id : String
  parent_span_id : String
deriving DecidableEq

structure Classification where
  vendor_type : String
  confidence : Rat
  detection_method : String
  matched_pattern : String
deriving DecidableEq

inductive Published where
  | classified (m : InvoiceClassifiedMessage)
  | extracted (m : InvoiceExtractedMessage)
deriving DecidableEq

/-- One observable call issued by a handler, in program order:
storage reads, storage copies, storage writes, bus publishes, the
invocation of the failure router, the LLM extraction call, the
observability score call and the observability flush call. -/
inductive Event where
  | read (bucket path : String)
  | copy (srcBucket srcPath dstBucket dstPath : String)
  | write (bucket path : String) (record : ErrorRecord) (contentType : String)
  | publish (topic : String) (payload : Published)
  | routeFailure (sourceFile errorMessage : String)
  | llmExtract (vendorType : String)
  | scoreTrace (traceId : String)
  | flush
deriving DecidableEq

def Event.isRead : Event → Bool
  | .read _ _ => true
  | _ => false

def Event.isCopy : Event → Bool
  | .copy _ _ _ _ => true
  | _ => false

def Event.isWrite : Event → Bool
  | .write _ _ _ _ => true
  | _ => false

def Event.isPublishEv : Event → Bool
  | .publish _ _ => true
  | _ => false

def Event.isRouteFailure : Event → Bool
  | .routeFailure _ _ => true
  | _ => false

def Event.isFlushEv : Event → Bool
  | .flush => true
  | _ => false

/-- Storage or message-bus side effects: downloads, copies, writes,
publishes (the side effects claim C2 forbids before validation). -/
def Event.isStorageOrBus (ev : Event) : Bool :=
  ev.isRead || ev.isCopy || ev.isWrite || ev.isPublishEv

def countFlush (evs : List Event) : Nat := evs.countP Event.isFlushEv

def countPublish (evs : List Event) : Nat := evs.countP Event.isPublishEv

def countRouteFailure (evs : List Event) : Nat := evs.countP Event.isRouteFailure

def publishedExtracted (evs : List Event) : List InvoiceExtractedMessage :=
  evs.filterMap fun ev =>
    match ev with
    | Event.publish _ (Published.extracted m) => some m
    | _ => none

def publishedClassified (evs : List Event) : List InvoiceClassifiedMessage :=
  evs.filterMap fun ev =>
    match ev with
    | Event.publish _ (Published.classified m) => some m
    | _ => none

/-- Final state of one handler invocation: either a normal return or
a raised exception (which the host turns into a retry). -/
inductive Outcome where
  | ok
  | raised (e : Exn)
deriving DecidableEq

structure HandlerRun where
  events : List Event
  outcome : Outcome
deriving DecidableEq

/-- Embedding of Python source_path.split of the slash character indexed
at -1 (the final segment): characters after the last slash, the whole
string when no slash occurs, empty when the path ends in a slash. -/
def afterLastSlash (cs : List Char) : List Char :=
  cs.foldl (fun acc c => if c = '/' then [] else acc ++ [c]) []

def lastSegment (s : String) : String := String.mk (afterLastSlash s.data)

/-- Environment of one data-extractor invocation: configuration values
plus one oracle per fallible collaborator call.  flushOutcome is indexed
by the number of flush calls already issued in the invocation. -/
structure ExtractEnv where
  failed_bucket : String
  extracted_topic : String
  langfuse_enabled : Bool
  parse : String → String × String
  decode : Except Exn InvoiceClassifiedMessage
  mkTrace : InvoiceClassifiedMessage → TraceContext
  read : String → String → Except Exn Bytes
  extract : List Bytes → String → Except Exn ExtractionResult
  scoreTraceOutcome : Except Exn Unit
  publishOutcome : Except Exn Unit
  flushOutcome : Nat → Except Exn Unit
  copyOutcome : Except Exn String
  writeOutcome : Except Exn Unit

/-- Embedding of main.py lines 257 to 297 (_copy_to_failed_bucket): parse
the source URI, flatten the path to its final segment, copy the object
into the failed bucket under that flattened name, then write the sibling
error record; the whole body is wrapped in a broad catch whose handler
only logs, so no fault escapes and a copy fault skips the record write. -/
def copyToFailedBucket (env : ExtractEnv) (source_file error_message : String) :
    List Event :=
  let bp := env.parse source_file
  let filename := lastSegment bp.2
  match env.copyOutcome with
  | Except.error _ => [Event.copy bp.1 bp.2 env.failed_bucket filename]
  | Except.ok _ =>
      [Event.copy bp.1 bp.2 env.failed_bucket filename,
       Event.write env.failed_bucket (filename ++ ".error.json")
         (ErrorRecord.mk source_file error_message) "application/json"]

/-- Embedding of the sequential download loop shared by both handlers:
parse each artifact URI, read it from storage, accumulate the images and
the total byte count; the first failing read aborts the loop and the
exception propagates. -/
def downloadAll (readOracle : String → String → Except Exn Bytes)
    (parse : String → String × String) :
    List String → List Event × Except Exn (List Bytes × Nat)
  | [] => ([], Except.ok ([], 0))
  | uri :: rest =>
    let bp := parse uri
    match readOracle bp.1 bp.2 with
    | Except.error e => ([Event.read bp.1 bp.2], Except.error e)
    | Except.ok data =>
      let tail := downloadAll readOracle parse rest
      (Event.read bp.1 bp.2 :: tail.1,
        match tail.2 with
        | Except.error e => Except.error e
        | Except.ok imgsTotal =>
            Except.ok (data :: imgsTotal.1, data.length + imgsTotal.2))

/-- Embedding of Python falsy-or on the optional error string:
result.error or the Unknown error default (None and the empty string are
both replaced). -/
def errOrDefault (err : Option String) : String :=
  match err with
  | none => "Unknown error"
  | some s => if s = "" then "Unknown error" else s

/-- Embedding of main.py lines 189 to 201: construction of the
InvoiceExtractedMessage from the trace context, the inbound message and
the extraction result. -/
def mkExtractedMessage (trace : TraceContext) (message : InvoiceClassifiedMessage)
    (result : ExtractionResult) : InvoiceExtractedMessage :=
  { trace_id := trace.trace_id
    session_id := trace.session_id
    parent_span_id := trace.parent_span_id
    source_file := message.source_file
    vendor_type := message.vendor_type
    extraction_model := if result.provider = "gemini" then "gemini-2.5-flash" else "openrouter"
    extraction_latency_ms := result.latency_ms
    confidence_score := result.confidence
    extracted_data :=
      match result.invoice with
      | some inv => inv.model_dump
      | none => []
    prompt_name := result.prompt_name
    prompt_version := result.prompt_version }

/-- Embedding of main.py lines 189 to 212 (publish and the success-path
flush, still inside the try block): publish the extracted message, then
flush; a fault in either propagates to the outer handler. -/
def extractPublish (env : ExtractEnv) (trace : TraceContext)
    (message : InvoiceClassifiedMessage) (result : ExtractionResult)
    (evs : List Event) : List Event × Except Exn Unit :=
  let msg := mkExtractedMessage trace message result
  let evs2 := evs ++ [Event.publish env.extracted_topic (Published.extracted msg)]
  match env.publishOutcome with
  | Except.error e => (evs2, Except.error e)
  | Except.ok _ =>
    match env.flushOutcome 0 with
    | Except.ok _ => (evs2 ++ [Event.flush], Except.ok ())
    | Except.error e => (evs2 ++ [Event.flush], Except.error e)

/-- Embedding of main.py lines 167 to 212 (the success branch): when a
structured invoice was produced and the observer is enabled, score the
trace (a fault here is fatal, no guard wraps it), then publish and
flush. -/
def extractSuccess (env : ExtractEnv) (trace : TraceContext)
    (message : InvoiceClassifiedMessage) (result : ExtractionResult)
    (evs0 : List Event) : List Event × Except Exn Unit :=
  if result.invoice.isSome && env.langfuse_enabled then
    let evs1 := evs0 ++ [Event.scoreTrace trace.trace_id]
    match env.scoreTraceOutcome with
    | Except.error e => (evs1, Except.error e)
    | Except.ok _ => extractPublish env trace message result evs1
  else
    extractPublish env trace message result evs0

/-- Embedding of the try block of handle_invoice_classified (main.py
lines 91 to 208): decode and validate, derive the trace context,
download every artifact, call the extraction computation, then branch on
result.success: the failure branch routes the original source to the
failed bucket with the error message (falsy error replaced by the
Unknown error default), flushes and returns; the success branch scores,
publishes and flushes. -/
def extractTry (env : ExtractEnv) : List Event × Except Exn Unit :=
  match env.decode with
  | Except.error e => ([], Except.error e)
  | Except.ok message =>
    let trace := env.mkTrace message
    let dl := downloadAll env.read env.parse message.converted_files
    match dl.2 with
    | Except.error e => (dl.1, Except.error e)
    | Except.ok imgsTotal =>
      let evs0 := dl.1 ++ [Event.llmExtract message.vendor_type]
      match env.extract imgsTotal.1 message.vendor_type with
      | Except.error e => (evs0, Except.error e)
      | Except.ok result =>
        if result.success then
          extractSuccess env trace message result evs0
        else
          let errMsg := errOrDefault result.error
          let evs1 := evs0 ++
            (Event.routeFailure message.source_file errMsg ::
              copyToFailedBucket env message.source_file errMsg) ++ [Event.flush]
          match env.flushOutcome 0 with
          | Except.ok _ => (evs1, Except.ok ())
          | Except.error e => (evs1, Except.error e)

/-- Embedding of handle_invoice_classified (main.py lines 42 to 238):
run the try block; on a caught exception flush once more (a fault in
that flush replaces the original exception), then log and re-raise. -/
def handle_invoice_classified (env : ExtractEnv) : HandlerRun :=
  match extractTry env with
  | (evs, Except.ok _) => HandlerRun.mk evs Outcome.ok
  | (evs, Except.error e) =>
    match env.flushOutcome (countFlush evs) with
    | Except.ok _ => HandlerRun.mk (evs ++ [Event.flush]) (Outcome.raised e)
    | Except.error e2 => HandlerRun.mk (evs ++ [Event.flush]) (Outcome.raised e2)

/-- Environment of one invoice-classifier invocation. -/
structure ClassifyEnv where
  archive_bucket : String
  classified_topic : String
  parse : String → String × String
  decode : Except Exn InvoiceConvertedMessage
  read : String → String → Except Exn Bytes
  validate_all_images : List Bytes → Bool × Rat × List String
  classify_vendor : String → List String → Classification
  copyOutcome : Except Exn String
  publishOutcome : Except Exn Unit

/-- Embedding of the try block of handle_invoice_converted
(invoice_classifier main.py lines 56 to 142): decode and validate,
download every artifact, run image-quality validation (an invalid
result only logs a warning, it does not branch), classify the vendor,
archive the original under its unchanged relative path, then build and
publish the classified message carrying the average quality score. -/
def classifyTry (env : ClassifyEnv) : List Event × Except Exn Unit :=
  match env.decode with
  | Except.error e => ([], Except.error e)
  | Except.ok message =>
    let dl := downloadAll env.read env.parse message.converted_files
    match dl.2 with
    | Except.error e => (dl.1, Except.error e)
    | Except.ok imgsTotal =>
      let vRes := env.validate_all_images imgsTotal.1
      let classification := env.classify_vendor message.source_file message.converted_files
      let bp := env.parse message.source_file
      let evs1 := dl.1 ++ [Event.copy bp.1 bp.2 env.archive_bucket bp.2]
      match env.copyOutcome with
      | Except.error e => (evs1, Except.error e)
      | Except.ok archive_uri =>
        let msg : InvoiceClassifiedMessage :=
          { source_file := message.source_file
            converted_files := message.converted_files
            vendor_type := classification.vendor_type
            quality_score := vRes.2.1
            archived_to := archive_uri }
        let evs2 := evs1 ++ [Event.publish env.classified_topic (Published.classified msg)]
        match env.publishOutcome with
        | Except.error e => (evs2, Except.error e)
        | Except.ok _ => (evs2, Except.ok ())

/-- Embedding of handle_invoice_converted (invoice_classifier main.py
lines 26 to 171): run the try block; a caught exception is logged and
re-raised unchanged (this handler has no flush side channel). -/
def handle_invoice_converted (env : ClassifyEnv) : HandlerRun :=
  match classifyTry env with
  | (evs, Except.ok _) => HandlerRun.mk evs Outcome.ok
  | (evs, Except.error e) => HandlerRun.mk evs (Outcome.raised e)

/-- Timing handle: a mutable mapping from string keys to integers,
modelled as an association list (first binding wins). -/
abbrev Metrics := List (String × Int)

def Metrics.get? : Metrics → String → Option Int
  | [], _ => none
  | kv :: rest, k => if kv.1 = k then some kv.2 else Metrics.get? rest k

/-- Dictionary assignment: overwrite the first binding of the key, or
append a new binding at the end. -/
def Metrics.set : Metrics → String → Int → Metrics
  | [], k, v => [(k, v)]
  | kv :: rest, k, v =>
      if kv.1 = k then (k, v) :: rest else kv :: Metrics.set rest k v

/-- Elapsed wall-clock milliseconds between two perf-counter readings
(in seconds, modelled as rationals), truncated to an integer; Python
int truncation coincides with the floor for the non-negative spans a
monotonic clock produces. -/
def elapsedMs (start stop : Rat) : Int := Int.floor ((stop - start) * 1000)

structure TimerRun (α : Type) where
  metrics : Metrics
  result : Except Exn α

/-- Embedding of timing.py lines 28 to 34 (function_timer): yield a
fresh empty metrics mapping to the body, and in the finally clause write
the elapsed milliseconds under the latency_ms key; the body's result
(normal value or raised exception) is passed through unchanged. -/
def function_timer {α : Type} (start stop : Rat)
    (body : Metrics → Metrics × Except Exn α) : TimerRun α :=
  let r := body []
  TimerRun.mk (Metrics.set r.1 "latency_ms" (elapsedMs start stop)) r.2

/-! Concrete sample collaborators and environments, used to instantiate
the theorems below on executable inputs. -/

def takeUntilSlash : List Char → List Char
  | [] => []
  | c :: rest => if c = '/' then [] else c :: takeUntilSlash rest

def dropThroughSlash : List Char → List Char
  | [] => []
  | c :: rest => if c = '/' then rest else dropThroughSlash rest

/-- A sample URI-parsing collaborator (spec section 6: splits a storage
URI into container and path): drop the five scheme characters, the
container is everything up to the first slash, the path the rest. -/
def gcsParse (uri : String) : String × String :=
  (String.mk (takeUntilSlash (uri.data.drop 5)),
   String.mk (dropThroughSlash (uri.data.drop 5)))

def sampleClassified : InvoiceClassifiedMessage :=
  InvoiceClassifiedMessage.mk "gs://inbox/sub/a.tif" ["gs://proc/a.png"] "ACME" 1
    "gs://archive/sub/a.tif"

def sampleConverted : InvoiceConvertedMessage :=
  InvoiceConvertedMessage.mk "gs://inbox/sub/a.tif" ["gs://proc/a.png"] 1

/-- A provider-level failure result (success flag down, no invoice). -/
def failResult (err : Option String) : ExtractionResult :=
  ExtractionResult.mk false none err "gemini" 120 0 "invoice-extract" "3"

/-- A successful extraction result answered by the gemini provider. -/
def okResult : ExtractionResult :=
  ExtractionResult.mk true none none "gemini" 120 1 "invoice-extract" "3"

def baseExtractEnv : ExtractEnv :=
  { failed_bucket := "failed"
    extracted_topic := "invoice-extracted"
    langfuse_enabled := false
    parse := gcsParse
    decode := Except.ok sampleClassified
    mkTrace := fun _ => TraceContext.mk "trace-1" "session-1" "span-1"
    read := fun _ _ => Except.ok [7, 7, 7]
    extract := fun _ _ => Except.ok okResult
    scoreTraceOutcome := Except.ok ()
    publishOutcome := Except.ok ()
    flushOutcome := fun _ => Except.ok ()
    copyOutcome := Except.ok "gs://failed/a.tif"
    writeOutcome := Except.ok () }

/-- Extractor environment whose provider call fails with an error string. -/
def c1env : ExtractEnv :=
  { baseExtractEnv with extract := fun _ _ => Except.ok (failResult (some "LLM failed")) }

/-- Extractor environment whose inbound message body is malformed. -/
def c2eenv : ExtractEnv :=
  { baseExtractEnv with decode := Except.error "malformed body" }

/-- Classifier environment whose inbound message body is malformed. -/
def c2cenv : ClassifyEnv :=
  { archive_bucket := "archive"
    classified_topic := "invoice-classified"
    parse := gcsParse
    decode := Except.error "malformed body"
    read := fun _ _ => Except.ok [7, 7]
    validate_all_images := fun _ => (true, 1, [])
    classify_vendor := fun _ _ => Classification.mk "ACME" 1 "filename" "ACME-"
    copyOutcome := Except.ok "gs://archive/sub/a.tif"
    publishOutcome := Except.ok () }

def baseClassifyEnv : ClassifyEnv :=
  { c2cenv with decode := Except.ok sampleConverted }

/-- Classifier environment whose image-quality validation is negative. -/
def c7env : ClassifyEnv :=
  { baseClassifyEnv with validate_all_images := fun _ => (false, 0, ["blur"]) }

/-- Extractor environment whose first observability flush call faults. -/
def c4env : ExtractEnv :=
  { baseExtractEnv with
      flushOutcome := fun n => if n = 0 then Except.error "flush boom" else Except.ok () }

/-- Extractor environment with a failing provider call and a faulting
failure-bucket copy. -/
def c4okenv : ExtractEnv :=
  { baseExtractEnv with
      extract := fun _ _ => Except.ok (failResult (some "LLM failed"))
      copyOutcome := Except.error "copy boom" }

/-- Extractor environment whose provider failure carries no error string. -/
def c8env : ExtractEnv :=
  { baseExtractEnv with extract := fun _ _ => Except.ok (failResult none) }

/-- A timer body that records a custom metric and then raises. -/
def c6body : Metrics → Metrics × Except Exn Unit :=
  fun m => (("custom", 42) :: m, Except.error "body fault")

/-! Helper lemmas. -/

theorem downloadAll_all_read (readOracle : String → String → Except Exn Bytes)
    (parse : String → String × String) (us : List String) :
    ∀ ev ∈ (downloadAll readOracle parse us).1, ∃ b p, ev = Event.read b p := by
  induction us with
  | nil => simp [downloadAll]
  | cons u rest ih =>
    simp only [downloadAll]
    cases h : readOracle (parse u).1 (parse u).2 with
    | error e => simp
    | ok d =>
      simp only [List.mem_cons]
      rintro ev (rfl | hev)
      · exact ⟨(parse u).1, (parse u).2, rfl⟩
      · exact ih ev hev

theorem countP_zero_of_reads {q : Event → Bool}
    (hq : ∀ b p, q (Event.read b p) = false)
    (l : List Event) (h : ∀ ev ∈ l, ∃ b p, ev = Event.read b p) :
    l.countP q = 0 := by
  rw [List.countP_eq_zero]
  intro a ha
  obtain ⟨b, p, rfl⟩ := h a ha
  simp [hq]

theorem publishedExtracted_append (l1 l2 : List Event) :
    publishedExtracted (l1 ++ l2) = publishedExtracted l1 ++ publishedExtracted l2 := by
  simp [publishedExtracted, List.filterMap_append]

theorem publishedClassified_append (l1 l2 : List Event) :
    publishedClassified (l1 ++ l2) = publishedClassified l1 ++ publishedClassified l2 := by
  simp [publishedClassified, List.filterMap_append]

theorem publishedExtracted_nil_of_reads (l : List Event)
    (h : ∀ ev ∈ l, ∃ b p, ev = Event.read b p) : publishedExtracted l = [] := by
  rw [publishedExtracted, List.filterMap_eq_nil_iff]
  intro a ha
  obtain ⟨b, p, rfl⟩ := h a ha
  rfl

theorem publishedClassified_nil_of_reads (l : List Event)
    (h : ∀ ev ∈ l, ∃ b p, ev = Event.read b p) : publishedClassified l = [] := by
  rw [publishedClassified, List.filterMap_eq_nil_iff]
  intro a ha
  obtain ⟨b, p, rfl⟩ := h a ha
  rfl

theorem copyToFailedBucket_of_error (env : ExtractEnv) (src err e : String)
    (h : env.copyOutcome = Except.error e) :
    copyToFailedBucket env src err =
      [Event.copy (env.parse src).1 (env.parse src).2 env.failed_bucket
        (lastSegment (env.parse src).2)] := by
  simp [copyToFailedBucket, h]

theorem copyToFailedBucket_of_ok (env : ExtractEnv) (src err u : String)
    (h : env.copyOutcome = Except.ok u) :
    copyToFailedBucket env src err =
      [Event.copy (env.parse src).1 (env.parse src).2 env.failed_bucket
        (lastSegment (env.parse src).2),
       Event.write env.failed_bucket (lastSegment (env.parse src).2 ++ ".error.json")
        (ErrorRecord.mk src err) "application/json"] := by
  simp [copyToFailedBucket, h]

theorem copyToFailedBucket_shape (env : ExtractEnv) (src err : String) :
    ∀ ev ∈ copyToFailedBucket env src err, ev.isCopy = true ∨ ev.isWrite = true := by
  unfold copyToFailedBucket
  cases env.copyOutcome <;> simp [Event.isCopy, Event.isWrite]

theorem copyToFailedBucket_write_record (env : ExtractEnv) (src err : String) :
    ∀ b p rec ct, Event.write b p rec ct ∈ copyToFailedBucket env src err →
      rec = ErrorRecord.mk src err := by
  unfold copyToFailedBucket
  cases env.copyOutcome with
  | error e => simp
  | ok u =>
    intro b p rec ct hmem
    simp at hmem
    exact hmem.2.2.1

theorem handle_of_try_ok (env : ExtractEnv) (h : (extractTry env).2 = Except.ok ()) :
    handle_invoice_classified env = HandlerRun.mk (extractTry env).1 Outcome.ok := by
  unfold handle_invoice_classified
  rcases he : extractTry env with ⟨evs, r⟩
  rw [he] at h
  simp at h
  subst h
  rfl

theorem handle_of_try_error (env : ExtractEnv) (e : Exn)
    (h : (extractTry env).2 = Except.error e) :
    (handle_invoice_classified env).events = (extractTry env).1 ++ [Event.flush]
    ∧ (env.flushOutcome (countFlush (extractTry env).1) = Except.ok () →
        (handle_invoice_classified env).outcome = Outcome.raised e)
    ∧ (∀ e2, env.flushOutcome (countFlush (extractTry env).1) = Except.error e2 →
        (handle_invoice_classified env).outcome = Outcome.raised e2) := by
  unfold handle_invoice_classified
  rcases he : extractTry env with ⟨evs, r⟩
  rw [he] at h
  simp at h
  subst h
  cases hf : env.flushOutcome (countFlush evs) with
  | ok u => simp [hf]
  | error e2 => simp [hf]

theorem handle_counts (env : ExtractEnv) :
    countRouteFailure (handle_invoice_classified env).events
      = countRouteFailure (extractTry env).1
    ∧ countPublish (handle_invoice_classified env).events
      = countPublish (extractTry env).1
    ∧ publishedExtracted (handle_invoice_classified env).events
      = publishedExtracted (extractTry env).1 := by
  unfold handle_invoice_classified
  rcases he : extractTry env with ⟨evs, r⟩
  cases r with
  | ok u => simp
  | error e =>
    cases hf : env.flushOutcome (countFlush evs) <;>
      simp [hf, countRouteFailure, countPublish, publishedExtracted, List.countP_append,
        List.filterMap_append, Event.isRouteFailure, Event.isPublishEv]

theorem handle_mem (env : ExtractEnv) (ev : Event) (hne : ev.isFlushEv = false) :
    ev ∈ (handle_invoice_classified env).events ↔ ev ∈ (extractTry env).1 := by
  unfold handle_invoice_classified
  rcases he : extractTry env with ⟨evs, r⟩
  cases r with
  | ok u => simp
  | error e =>
    have hnf : ev ≠ Event.flush := by
      intro hh
      subst hh
      simp [Event.isFlushEv] at hne
    cases hf : env.flushOutcome (countFlush evs) <;> simp [hf, List.mem_append, hnf]

theorem extractTry_failure (env : ExtractEnv) (m : InvoiceClassifiedMessage)
    (imgs : List Bytes) (total : Nat) (result : ExtractionResult)
    (hdec : env.decode = Except.ok m)
    (hdl : (downloadAll env.read env.parse m.converted_files).2 = Except.ok (imgs, total))
    (hex : env.extract imgs m.vendor_type = Except.ok result)
    (hfail : result.success = false) :
    extractTry env =
      ((downloadAll env.read env.parse m.converted_files).1 ++
        ([Event.llmExtract m.vendor_type] ++
          ((Event.routeFailure m.source_file (errOrDefault result.error) ::
            copyToFailedBucket env m.source_file (errOrDefault result.error)) ++
            [Event.flush])),
       match env.flushOutcome 0 with
       | Except.ok _ => Except.ok ()
       | Except.error e => Except.error e) := by
  unfold extractTry
  rw [hdec]
  cases hf : env.flushOutcome 0 <;> simp [hdl, hex, hfail, hf, List.append_assoc]

theorem extractTry_success (env : ExtractEnv) (m : InvoiceClassifiedMessage)
    (imgs : List Bytes) (total : Nat) (result : ExtractionResult)
    (hdec : env.decode = Except.ok m)
    (hdl : (downloadAll env.read env.parse m.converted_files).2 = Except.ok (imgs, total))
    (hex : env.extract imgs m.vendor_type = Except.ok result)
    (hsucc : result.success = true) :
    extractTry env = extractSuccess env (env.mkTrace m) m result
      ((downloadAll env.read env.parse m.converted_files).1 ++
        [Event.llmExtract m.vendor_type]) := by
  unfold extractTry
  rw [hdec]
  simp [hdl, hex, hsucc]

theorem extractPublish_events (env : ExtractEnv) (trace : TraceContext)
    (m : InvoiceClassifiedMessage) (result : ExtractionResult) (evs : List Event) :
    publishedExtracted (extractPublish env trace m result evs).1
      = publishedExtracted evs ++ [mkExtractedMessage trace m result]
    ∧ countPublish (extractPublish env trace m result evs).1 = countPublish evs + 1 := by
  unfold extractPublish
  cases hp : env.publishOutcome with
  | error e =>
    simp [publishedExtracted, countPublish, List.filterMap_append, List.countP_append,
      Event.isPublishEv]
  | ok u =>
    cases hf : env.flushOutcome 0 <;>
      simp [publishedExtracted, countPublish, List.filterMap_append, List.countP_append,
        Event.isPublishEv, Event.isFlushEv]

theorem extractSuccess_events (env : ExtractEnv) (trace : TraceContext)
    (m : InvoiceClassifiedMessage) (result : ExtractionResult) (evs : List Event)
    (hscore : (result.invoice.isSome && env.langfuse_enabled) = true →
      env.scoreTraceOutcome = Except.ok ()) :
    publishedExtracted (extractSuccess env trace m result evs).1
      = publishedExtracted evs ++ [mkExtractedMessage trace m result]
    ∧ countPublish (extractSuccess env trace m result evs).1 = countPublish evs + 1 := by
  unfold extractSuccess
  cases hcond : result.invoice.isSome && env.langfuse_enabled with
  | false =>
    simp only [hcond, Bool.false_eq_true, if_false]
    exact extractPublish_events env trace m result evs
  | true =>
    rw [hscore hcond]
    simp only [hcond, if_true]
    have h2 := extractPublish_events env trace m result (evs ++ [Event.scoreTrace trace.trace_id])
    simp [publishedExtracted, countPublish, List.filterMap_append, List.countP_append,
      Event.isPublishEv] at h2 ⊢
    exact h2

theorem classify_decode_error (env : ClassifyEnv) (e : Exn)
    (hdec : env.decode = Except.error e) :
    handle_invoice_converted env = HandlerRun.mk [] (Outcome.raised e) := by
  simp [handle_invoice_converted, classifyTry, hdec]

theorem classifyTry_reduce (env : ClassifyEnv) (m : InvoiceConvertedMessage)
    (imgs : List Bytes) (total : Nat) (allValid : Bool) (avg : Rat)
    (issues : List String) (uri : String)
    (hdec : env.decode = Except.ok m)
    (hdl : (downloadAll env.read env.parse m.converted_files).2 = Except.ok (imgs, total))
    (hval : env.validate_all_images imgs = (allValid, avg, issues))
    (hcopy : env.copyOutcome = Except.ok uri) :
    classifyTry env =
      ((downloadAll env.read env.parse m.converted_files).1 ++
        ([Event.copy (env.parse m.source_file).1 (env.parse m.source_file).2
            env.archive_bucket (env.parse m.source_file).2] ++
          [Event.publish env.classified_topic (Published.classified
            (InvoiceClassifiedMessage.mk m.source_file m.converted_files
              (env.classify_vendor m.source_file m.converted_files).vendor_type
              avg uri))]),
       match env.publishOutcome with
       | Except.ok _ => Except.ok ()
       | Except.error e => Except.error e) := by
  unfold classifyTry
  rw [hdec]
  cases hp : env.publishOutcome <;> simp [hdl, hval, hcopy, hp, List.append_assoc]

theorem Metrics.get_set_same (m : Metrics) (k : String) (v : Int) :
    Metrics.get? (Metrics.set m k v) k = some v := by
  induction m with
  | nil => simp [Metrics.set, Metrics.get?]
  | cons kv rest ih =>
    by_cases h : kv.1 = k
    · simp [Metrics.set, h, Metrics.get?]
    · simp [Metrics.set, h, Metrics.get?, ih]

theorem Metrics.get_set_ne (m : Metrics) (k k2 : String) (v : Int) (h : k2 ≠ k) :
    Metrics.get? (Metrics.set m k v) k2 = Metrics.get? m k2 := by
  induction m with
  | nil =>
    have hne : ¬ (k = k2) := fun hh => h hh.symm
    simp [Metrics.set, Metrics.get?, hne]
  | cons kv rest ih =>
    by_cases hk : kv.1 = k
    · have hne : ¬ (k = k2) := fun hh => h hh.symm
      simp [Metrics.set, Metrics.get?, hk, hne]
    · by_cases h2 : kv.1 = k2 <;> simp [Metrics.set, Metrics.get?, hk, h2, h, ih]

theorem Metrics.set_eq_append (m : Metrics) (k : String) (v : Int)
    (h : k ∉ m.map Prod.fst) : Metrics.set m k v = m ++ [(k, v)] := by
  induction m with
  | nil => simp [Metrics.set]
  | cons kv rest ih =>
    simp only [List.map_cons, List.mem_cons] at h
    push_neg at h
    have h1 : kv.1 ≠ k := fun hh => h.1 hh.symm
    simp [Metrics.set, h1, ih h.2]

theorem Metrics.filter_key_of_not_mem (m : Metrics) (k : String) (v : Int)
    (h : k ∉ m.map Prod.fst) :
    (m ++ [(k, v)]).filter (fun kv => kv.1 == k) = [(k, v)] := by
  rw [List.filter_append]
  have h1 : m.filter (fun kv => kv.1 == k) = [] := by
    rw [List.filter_eq_nil_iff]
    intro a ha
    simp only [beq_iff_eq]
    intro hak
    exact h (hak ▸ List.mem_map_of_mem Prod.fst ha)
  simp [h1]

theorem elapsedMs_nonneg (start stop : Rat) (h : start ≤ stop) :
    0 ≤ elapsedMs start stop := by
  unfold elapsedMs
  rw [Int.le_floor]
  push_cast
  have hs : (0:Rat) ≤ stop - start := sub_nonneg.mpr h
  nlinarith

/-! Claim theorems. -/

/-- C6: for every timer scope, the yielded handle contains no duration
key at scope entry; on exit, normal and faulting alike, exactly one
write occurs, storing the elapsed time as a non-negative whole
millisecond integer under the fixed latency_ms key, into the same
mapping the body worked on (caller-inserted keys survive untouched); and
when the scope body raises, the original fault still propagates after
the write. -/
theorem c6_timer_contract {α : Type} (start stop : Rat)
    (body : Metrics → Metrics × Except Exn α)
    (hmono : start ≤ stop)
    (hbody : "latency_ms" ∉ (body []).1.map Prod.fst) :
    Metrics.get? [] "latency_ms" = none
    ∧ Metrics.get? (function_timer start stop body).metrics "latency_ms"
        = some (elapsedMs start stop)
    ∧ 0 ≤ elapsedMs start stop
    ∧ (function_timer start stop body).metrics.filter (fun kv => kv.1 == "latency_ms")
        = [("latency_ms", elapsedMs start stop)]
    ∧ (∀ k, k ≠ "latency_ms" →
        Metrics.get? (function_timer start stop body).metrics k
          = Metrics.get? (body []).1 k)
    ∧ (function_timer start stop body).result = (body []).2 := by
  refine ⟨rfl, ?_, elapsedMs_nonneg start stop hmono, ?_, ?_, rfl⟩
  · exact Metrics.get_set_same (body []).1 "latency_ms" (elapsedMs start stop)
  · show (Metrics.set (body []).1 "latency_ms" (elapsedMs start stop)).filter
        (fun kv => kv.1 == "latency_ms") = [("latency_ms", elapsedMs start stop)]
    rw [Metrics.set_eq_append (body []).1 "latency_ms" (elapsedMs start stop) hbody]
    exact Metrics.filter_key_of_not_mem (body []).1 "latency_ms" (elapsedMs start stop) hbody
  · intro k hk
    exact Metrics.get_set_ne (body []).1 "latency_ms" k (elapsedMs start stop) hk

/-- C6 witness: the timer contract instantiated on a concrete body that
records a custom metric and raises. -/
theorem c6_timer_contract_witness :
    Metrics.get? (function_timer 0 1 c6body).metrics "latency_ms"
        = some (elapsedMs 0 1)
    ∧ 0 ≤ elapsedMs 0 1
    ∧ (function_timer 0 1 c6body).metrics.filter (fun kv => kv.1 == "latency_ms")
        = [("latency_ms", elapsedMs 0 1)]
    ∧ (function_timer 0 1 c6body).result = Except.error "body fault" :=
  ⟨(c6_timer_contract 0 1 c6body (by norm_num) (by decide)).2.1,
   (c6_timer_contract 0 1 c6body (by norm_num) (by decide)).2.2.1,
   (c6_timer_contract 0 1 c6body (by norm_num) (by decide)).2.2.2.1,
   (c6_timer_contract 0 1 c6body (by norm_num) (by decide)).2.2.2.2.2⟩

/-- C9: inside the failure router the copy of the source object is
attempted strictly before the error-record write: the first issued call
is the copy, a record write is issued exactly when the copy succeeded,
and when the copy faults no record write is issued at all. -/
theorem c9_copy_before_record (env : ExtractEnv) (src err : String) :
    (∃ ev, (copyToFailedBucket env src err).head? = some ev ∧ ev.isCopy = true)
    ∧ ((copyToFailedBucket env src err).any Event.isWrite = env.copyOutcome.isOk)
    ∧ (∀ e, env.copyOutcome = Except.error e →
        (copyToFailedBucket env src err).all (fun ev => !ev.isWrite) = true) := by
  unfold copyToFailedBucket
  cases hc : env.copyOutcome with
  | error e => simp [Event.isCopy, Event.isWrite, Except.isOk, Except.toBool]
  | ok u => simp [Event.isCopy, Event.isWrite, Except.isOk, Except.toBool]

/-- C9 witness: the router ordering instantiated on a concrete
environment and source. -/
theorem c9_copy_before_record_witness :
    (∃ ev, (copyToFailedBucket baseExtractEnv "gs://inbox/sub/a.tif" "boom").head?
        = some ev ∧ ev.isCopy = true)
    ∧ ((copyToFailedBucket baseExtractEnv "gs://inbox/sub/a.tif" "boom").any Event.isWrite
        = baseExtractEnv.copyOutcome.isOk)
    ∧ (∀ e, baseExtractEnv.copyOutcome = Except.error e →
        (copyToFailedBucket baseExtractEnv "gs://inbox/sub/a.tif" "boom").all
          (fun ev => !ev.isWrite) = true) :=
  c9_copy_before_record baseExtractEnv "gs://inbox/sub/a.tif" "boom"

/-- C10: when an exception escapes the main step sequence of the
extraction handler, exactly one additional flush call is issued on the
fault path; after a returning flush the original exception is re-raised,
and a fault inside that flush propagates in its place. -/
theorem c10_fault_path_flush (env : ExtractEnv) (evs : List Event) (e : Exn)
    (h : extractTry env = (evs, Except.error e)) :
    (handle_invoice_classified env).events = evs ++ [Event.flush]
    ∧ countFlush (handle_invoice_classified env).events = countFlush evs + 1
    ∧ (env.flushOutcome (countFlush evs) = Except.ok () →
        (handle_invoice_classified env).outcome = Outcome.raised e)
    ∧ (∀ e2, env.flushOutcome (countFlush evs) = Except.error e2 →
        (handle_invoice_classified env).outcome = Outcome.raised e2) := by
  have h2 : (extractTry env).2 = Except.error e := by rw [h]
  obtain ⟨ha, hb, hc⟩ := handle_of_try_error env e h2
  rw [h] at ha hb hc
  refine ⟨ha, ?_, hb, hc⟩
  rw [ha]
  simp [countFlush, List.countP_append, Event.isFlushEv]

/-- C10 witness: the fault-path flush contract instantiated on an
environment whose inbound message is malformed. -/
theorem c10_fault_path_flush_witness :
    (handle_invoice_classified c2eenv).events = [] ++ [Event.flush]
    ∧ countFlush (handle_invoice_classified c2eenv).events = countFlush [] + 1
    ∧ (c2eenv.flushOutcome (countFlush []) = Except.ok () →
        (handle_invoice_classified c2eenv).outcome = Outcome.raised "malformed body")
    ∧ (∀ e2, c2eenv.flushOutcome (countFlush []) = Except.error e2 →
        (handle_invoice_classified c2eenv).outcome = Outcome.raised e2) :=
  c10_fault_path_flush c2eenv [] "malformed body" rfl

/-- C2: an inbound message whose decoded body fails validation makes the
handler raise before any storage download, archive copy, failure-bucket
write or publish call: the classifier issues no call at all and
re-raises the validation fault, and the extractor issues only its
fault-path observability flush (no storage or bus call, no
failure-bucket routing) and raises. -/
theorem c2_validate_then_act (envC : ClassifyEnv) (envE : ExtractEnv) (e1 e2 : Exn)
    (h1 : envC.decode = Except.error e1) (h2 : envE.decode = Except.error e2) :
    handle_invoice_converted envC = HandlerRun.mk [] (Outcome.raised e1)
    ∧ ((handle_invoice_classified envE).events.all
        (fun ev => !ev.isStorageOrBus)) = true
    ∧ countRouteFailure (handle_invoice_classified envE).events = 0
    ∧ (∃ e, (handle_invoice_classified envE).outcome = Outcome.raised e) := by
  have hC := classify_decode_error envC e1 h1
  have htry : extractTry envE = ([], Except.error e2) := by
    unfold extractTry
    rw [h2]
  obtain ⟨ha, hb, hc⟩ := handle_of_try_error envE e2 (by rw [htry])
  rw [htry] at ha hb hc
  simp only [countFlush, List.countP_nil] at hb hc
  refine ⟨hC, ?_, ?_, ?_⟩
  · rw [ha]
    simp [Event.isStorageOrBus, Event.isRead, Event.isCopy, Event.isWrite,
      Event.isPublishEv]
  · rw [ha]
    simp [countRouteFailure, Event.isRouteFailure]
  · cases hf : envE.flushOutcome 0 with
    | ok u =>
      cases u
      exact ⟨e2, hb hf⟩
    | error e3 => exact ⟨e3, hc e3 hf⟩

/-- C2 witness: the validate-then-act contract instantiated on concrete
environments whose decode step rejects the body. -/
theorem c2_validate_then_act_witness :
    handle_invoice_converted c2cenv = HandlerRun.mk [] (Outcome.raised "malformed body")
    ∧ ((handle_invoice_classified c2eenv).events.all
        (fun ev => !ev.isStorageOrBus)) = true
    ∧ countRouteFailure (handle_invoice_classified c2eenv).events = 0
    ∧ (∃ e, (handle_invoice_classified c2eenv).outcome = Outcome.raised e) :=
  c2_validate_then_act c2cenv c2eenv "malformed body" "malformed body"
    rfl rfl

theorem failure_events_counts (env : ExtractEnv) (m : InvoiceClassifiedMessage)
    (errMsg : String) (evs : List Event)
    (hevs : evs = (downloadAll env.read env.parse m.converted_files).1 ++
        ([Event.llmExtract m.vendor_type] ++
          ((Event.routeFailure m.source_file errMsg ::
            copyToFailedBucket env m.source_file errMsg) ++ [Event.flush]))) :
    countRouteFailure evs = 1
    ∧ Event.routeFailure m.source_file errMsg ∈ evs
    ∧ countPublish evs = 0 := by
  subst hevs
  have hreads := downloadAll_all_read env.read env.parse m.converted_files
  have h1 : (downloadAll env.read env.parse m.converted_files).1.countP
      Event.isRouteFailure = 0 :=
    countP_zero_of_reads (fun b p => rfl) _ hreads
  have h2 : (downloadAll env.read env.parse m.converted_files).1.countP
      Event.isPublishEv = 0 :=
    countP_zero_of_reads (fun b p => rfl) _ hreads
  have h3 : (copyToFailedBucket env m.source_file errMsg).countP
      Event.isRouteFailure = 0 := by
    unfold copyToFailedBucket
    cases env.copyOutcome <;> simp [Event.isRouteFailure]
  have h4 : (copyToFailedBucket env m.source_file errMsg).countP
      Event.isPublishEv = 0 := by
    unfold copyToFailedBucket
    cases env.copyOutcome <;> simp [Event.isPublishEv]
  refine ⟨?_, ?_, ?_⟩
  · simp [countRouteFailure, List.countP_append, List.countP_cons, h1, h3,
      Event.isRouteFailure]
  · simp [List.mem_append]
  · simp [countPublish, List.countP_append, List.countP_cons, h2, h4,
      Event.isPublishEv]

theorem failure_events_write_record (env : ExtractEnv) (m : InvoiceClassifiedMessage)
    (errMsg : String) :
    ∀ b p rec ct, Event.write b p rec ct ∈
      ((downloadAll env.read env.parse m.converted_files).1 ++
        ([Event.llmExtract m.vendor_type] ++
          ((Event.routeFailure m.source_file errMsg ::
            copyToFailedBucket env m.source_file errMsg) ++ [Event.flush]))) →
      rec = ErrorRecord.mk m.source_file errMsg := by
  intro b p rec ct hmem
  simp only [List.mem_append, List.mem_cons, List.mem_singleton] at hmem
  rcases hmem with hd | hmem
  · obtain ⟨b2, p2, heq⟩ := downloadAll_all_read env.read env.parse m.converted_files _ hd
    exact absurd heq (by simp)
  · rcases hmem with heq | hmem
    · exact absurd heq (by simp)
    · rcases hmem with hmem | heq
      · rcases hmem with heq | hr
        · exact absurd heq (by simp)
        · exact copyToFailedBucket_write_record env m.source_file errMsg b p rec ct hr
      · exact absurd heq (by simp)

/-- C1: for every valid inbound Classified message whose extraction
computation returns a negative result carrying an error message, the
handler invokes failure-bucket routing exactly once, with the original
source identifier and that error message, never calls publish, and
(its terminal flush returning) returns normally without raising. -/
theorem c1_failure_routing (env : ExtractEnv) (m : InvoiceClassifiedMessage)
    (imgs : List Bytes) (total : Nat) (result : ExtractionResult) (s : String)
    (hdec : env.decode = Except.ok m)
    (hdl : (downloadAll env.read env.parse m.converted_files).2 = Except.ok (imgs, total))
    (hex : env.extract imgs m.vendor_type = Except.ok result)
    (hfail : result.success = false)
    (herr : result.error = some s) (hne : s ≠ "")
    (hflush : env.flushOutcome 0 = Except.ok ()) :
    countRouteFailure (handle_invoice_classified env).events = 1
    ∧ Event.routeFailure m.source_file s ∈ (handle_invoice_classified env).events
    ∧ countPublish (handle_invoice_classified env).events = 0
    ∧ (handle_invoice_classified env).outcome = Outcome.ok := by
  have herr2 : errOrDefault result.error = s := by simp [errOrDefault, herr, hne]
  have htry := extractTry_failure env m imgs total result hdec hdl hex hfail
  rw [herr2] at htry
  have h2 : (extractTry env).2 = Except.ok () := by
    rw [htry]
    simp [hflush]
  have hrun := handle_of_try_ok env h2
  rw [htry] at hrun
  obtain ⟨k1, k2, k3⟩ := failure_events_counts env m s
    ((handle_invoice_classified env).events) (by rw [hrun])
  exact ⟨k1, k2, k3, by rw [hrun]⟩

/-- C1 witness: the failure-routing contract instantiated on a concrete
environment whose provider call fails with an error string. -/
theorem c1_failure_routing_witness :
    countRouteFailure (handle_invoice_classified c1env).events = 1
    ∧ Event.routeFailure sampleClassified.source_file "LLM failed"
        ∈ (handle_invoice_classified c1env).events
    ∧ countPublish (handle_invoice_classified c1env).events = 0
    ∧ (handle_invoice_classified c1env).outcome = Outcome.ok :=
  c1_failure_routing c1env sampleClassified [[7, 7, 7]] 3
    (failResult (some "LLM failed")) "LLM failed" rfl rfl rfl rfl rfl
    (by decide) rfl

/-- C4 counterexample: the claim says observability-flush faults never
propagate to the handler's caller; on this concrete run the success-path
flush faults and the handler re-raises it, so the fault does propagate. -/
theorem c4_counterexample :
    (handle_invoice_classified c4env).outcome = Outcome.raised "flush boom"
    ∧ Outcome.raised "flush boom" ≠ Outcome.ok :=
  ⟨rfl, by decide⟩

/-- C4 amended: faults inside the failure-bucket routing step are caught
and logged inside the router and never propagate to the handler's
caller: even with a faulting routing copy the failure path still
returns normally and routes exactly once; observability flush faults,
by contrast, are caught by the outer handler, logged and re-raised. -/
theorem c4_routing_faults_swallowed (env : ExtractEnv) (m : InvoiceClassifiedMessage)
    (imgs : List Bytes) (total : Nat) (result : ExtractionResult) (ce : Exn)
    (hdec : env.decode = Except.ok m)
    (hdl : (downloadAll env.read env.parse m.converted_files).2 = Except.ok (imgs, total))
    (hex : env.extract imgs m.vendor_type = Except.ok result)
    (hfail : result.success = false)
    (hcopy : env.copyOutcome = Except.error ce)
    (hflush : env.flushOutcome 0 = Except.ok ()) :
    (handle_invoice_classified env).outcome = Outcome.ok
    ∧ countRouteFailure (handle_invoice_classified env).events = 1 := by
  have htry := extractTry_failure env m imgs total result hdec hdl hex hfail
  have h2 : (extractTry env).2 = Except.ok () := by
    rw [htry]
    simp [hflush]
  have hrun := handle_of_try_ok env h2
  rw [htry] at hrun
  obtain ⟨k1, k2, k3⟩ := failure_events_counts env m (errOrDefault result.error)
    ((handle_invoice_classified env).events) (by rw [hrun])
  exact ⟨by rw [hrun], k1⟩

/-- C4 witness: the amended routing contract instantiated on a concrete
environment whose failure-bucket copy itself faults. -/
theorem c4_routing_faults_swallowed_witness :
    (handle_invoice_classified c4okenv).outcome = Outcome.ok
    ∧ countRouteFailure (handle_invoice_classified c4okenv).events = 1 :=
  c4_routing_faults_swallowed c4okenv sampleClassified [[7, 7, 7]] 3
    (failResult (some "LLM failed")) "copy boom" rfl rfl rfl rfl rfl rfl

/-- C8: when the extraction result is negative and its error field is
absent or empty, the failure router is invoked with the substitute
message Unknown error, exactly once, and every error record written in
the run carries that non-empty substitute string. -/
theorem c8_unknown_error_default (env : ExtractEnv) (m : InvoiceClassifiedMessage)
    (imgs : List Bytes) (total : Nat) (result : ExtractionResult)
    (hdec : env.decode = Except.ok m)
    (hdl : (downloadAll env.read env.parse m.converted_files).2 = Except.ok (imgs, total))
    (hex : env.extract imgs m.vendor_type = Except.ok result)
    (hfail : result.success = false)
    (herr : result.error = none ∨ result.error = some "") :
    Event.routeFailure m.source_file "Unknown error"
        ∈ (handle_invoice_classified env).events
    ∧ countRouteFailure (handle_invoice_classified env).events = 1
    ∧ (∀ b p rec ct, Event.write b p rec ct ∈ (handle_invoice_classified env).events →
        rec.error = "Unknown error") := by
  have hu : errOrDefault result.error = "Unknown error" := by
    rcases herr with h | h <;> simp [errOrDefault, h]
  have htry := extractTry_failure env m imgs total result hdec hdl hex hfail
  rw [hu] at htry
  have htryl : (extractTry env).1 =
      (downloadAll env.read env.parse m.converted_files).1 ++
        ([Event.llmExtract m.vendor_type] ++
          ((Event.routeFailure m.source_file "Unknown error" ::
            copyToFailedBucket env m.source_file "Unknown error") ++ [Event.flush])) := by
    rw [htry]
  obtain ⟨t1, t2, t3⟩ := handle_counts env
  obtain ⟨k1, k2, k3⟩ := failure_events_counts env m "Unknown error"
    ((extractTry env).1) htryl
  refine ⟨?_, ?_, ?_⟩
  · rw [handle_mem env (Event.routeFailure m.source_file "Unknown error") rfl]
    exact k2
  · rw [t1]
    exact k1
  · intro b p rec ct hmem
    rw [handle_mem env (Event.write b p rec ct) rfl] at hmem
    rw [htryl] at hmem
    have := failure_events_write_record env m "Unknown error" b p rec ct hmem
    rw [this]

/-- C8 witness: the substitute error message instantiated on a concrete
environment whose provider failure carries no error string. -/
theorem c8_unknown_error_default_witness :
    Event.routeFailure sampleClassified.source_file "Unknown error"
        ∈ (handle_invoice_classified c8env).events
    ∧ countRouteFailure (handle_invoice_classified c8env).events = 1
    ∧ (∀ b p rec ct, Event.write b p rec ct ∈ (handle_invoice_classified c8env).events →
        rec.error = "Unknown error") :=
  c8_unknown_error_default c8env sampleClassified [[7, 7, 7]] 3 (failResult none)
    rfl rfl rfl rfl (Or.inl rfl)

/-- C3 counterexample: the claim says the published message's provider
field equals the one carried in the extraction result; on this concrete
run the result's provider is the string gemini but the published
extraction_model field is the mapped model name gemini-2.5-flash, which
differs from it. -/
theorem c3_counterexample :
    (publishedExtracted (handle_invoice_classified baseExtractEnv).events).map
        InvoiceExtractedMessage.extraction_model = ["gemini-2.5-flash"]
    ∧ okResult.provider = "gemini"
    ∧ ("gemini-2.5-flash" : String) ≠ "gemini" :=
  ⟨rfl, rfl, by decide⟩

/-- C3 amended: for every valid inbound Classified message whose
extraction result is positive, the handler calls publish exactly once,
with an Extracted message whose source_file equals the inbound one,
whose latency and confidence equal those carried in the result, whose
extraction_model is the model name determined by the result's provider
(gemini-2.5-flash when the provider is gemini, openrouter otherwise),
and whose extracted_data is the invoice serialisation, or the empty
object when no structured invoice was produced. -/
theorem c3_publish_contract (env : ExtractEnv) (m : InvoiceClassifiedMessage)
    (imgs : List Bytes) (total : Nat) (result : ExtractionResult)
    (hdec : env.decode = Except.ok m)
    (hdl : (downloadAll env.read env.parse m.converted_files).2 = Except.ok (imgs, total))
    (hex : env.extract imgs m.vendor_type = Except.ok result)
    (hsucc : result.success = true)
    (hscore : (result.invoice.isSome && env.langfuse_enabled) = true →
      env.scoreTraceOutcome = Except.ok ()) :
    publishedExtracted (handle_invoice_classified env).events
      = [mkExtractedMessage (env.mkTrace m) m result]
    ∧ countPublish (handle_invoice_classified env).events = 1
    ∧ (mkExtractedMessage (env.mkTrace m) m result).source_file = m.source_file
    ∧ (mkExtractedMessage (env.mkTrace m) m result).extraction_latency_ms
        = result.latency_ms
    ∧ (mkExtractedMessage (env.mkTrace m) m result).confidence_score
        = result.confidence
    ∧ (mkExtractedMessage (env.mkTrace m) m result).extraction_model
        = (if result.provider = "gemini" then "gemini-2.5-flash" else "openrouter")
    ∧ (mkExtractedMessage (env.mkTrace m) m result).extracted_data
        = (match result.invoice with
           | some inv => inv.model_dump
           | none => []) := by
  have htry := extractTry_success env m imgs total result hdec hdl hex hsucc
  obtain ⟨t1, t2, t3⟩ := handle_counts env
  obtain ⟨p1, p2⟩ := extractSuccess_events env (env.mkTrace m) m result
    ((downloadAll env.read env.parse m.converted_files).1 ++
      [Event.llmExtract m.vendor_type]) hscore
  have hreads := downloadAll_all_read env.read env.parse m.converted_files
  have hnil : publishedExtracted
      ((downloadAll env.read env.parse m.converted_files).1 ++
        [Event.llmExtract m.vendor_type]) = [] := by
    rw [publishedExtracted_append, publishedExtracted_nil_of_reads _ hreads]
    rfl
  have hzero : countPublish
      ((downloadAll env.read env.parse m.converted_files).1 ++
        [Event.llmExtract m.vendor_type]) = 0 := by
    have hz := countP_zero_of_reads (q := Event.isPublishEv) (fun b p => rfl) _ hreads
    simp [countPublish, List.countP_append, hz, Event.isPublishEv]
  refine ⟨?_, ?_, rfl, rfl, rfl, rfl, rfl⟩
  · rw [t3, htry, p1, hnil]
    rfl
  · rw [t2, htry, p2, hzero]

/-- C3 witness: the amended publish contract instantiated on a concrete
successful run. -/
theorem c3_publish_contract_witness :
    publishedExtracted (handle_invoice_classified baseExtractEnv).events
      = [mkExtractedMessage (baseExtractEnv.mkTrace sampleClassified)
          sampleClassified okResult]
    ∧ countPublish (handle_invoice_classified baseExtractEnv).events = 1
    ∧ (mkExtractedMessage (baseExtractEnv.mkTrace sampleClassified)
        sampleClassified okResult).source_file = sampleClassified.source_file
    ∧ (mkExtractedMessage (baseExtractEnv.mkTrace sampleClassified)
        sampleClassified okResult).extraction_latency_ms = okResult.latency_ms
    ∧ (mkExtractedMessage (baseExtractEnv.mkTrace sampleClassified)
        sampleClassified okResult).confidence_score = okResult.confidence
    ∧ (mkExtractedMessage (baseExtractEnv.mkTrace sampleClassified)
        sampleClassified okResult).extraction_model
        = (if okResult.provider = "gemini" then "gemini-2.5-flash" else "openrouter")
    ∧ (mkExtractedMessage (baseExtractEnv.mkTrace sampleClassified)
        sampleClassified okResult).extracted_data
        = (match okResult.invoice with
           | some inv => inv.model_dump
           | none => []) :=
  c3_publish_contract baseExtractEnv sampleClassified [[7, 7, 7]] 3 okResult
    rfl rfl rfl rfl (fun h => by simp [okResult] at h)

/-- C5: given a source identifier and an error message, the failure
router copies the source object into the failure bucket flattened to the
bucket root, keeping only the final filename segment of the parsed path,
and then writes a sibling JSON record named after the flattened filename
containing exactly the fields source_file, holding the original source
URI, and error, holding the given message. -/
theorem c5_router_flatten (env : ExtractEnv) (src err uri : String)
    (hcopy : env.copyOutcome = Except.ok uri) :
    copyToFailedBucket env src err =
      [Event.copy (env.parse src).1 (env.parse src).2 env.failed_bucket
        (lastSegment (env.parse src).2),
       Event.write env.failed_bucket (lastSegment (env.parse src).2 ++ ".error.json")
        (ErrorRecord.mk src err) "application/json"] :=
  copyToFailedBucket_of_ok env src err uri hcopy

/-- C5 witness: the router contract instantiated on a concrete nested
source path, whose copy lands flattened at the bucket root with the
sibling error record next to it. -/
theorem c5_router_flatten_witness :
    copyToFailedBucket baseExtractEnv "gs://inbox/sub/a.tif" "extraction failed" =
      [Event.copy "inbox" "sub/a.tif" "failed" "a.tif",
       Event.write "failed" "a.tif.error.json"
         (ErrorRecord.mk "gs://inbox/sub/a.tif" "extraction failed")
         "application/json"] := by
  rw [c5_router_flatten baseExtractEnv "gs://inbox/sub/a.tif" "extraction failed"
    "gs://failed/a.tif" rfl]
  rfl

theorem classify_handle_events (env : ClassifyEnv) :
    (handle_invoice_converted env).events = (classifyTry env).1 := by
  unfold handle_invoice_converted
  rcases he : classifyTry env with ⟨evs, r⟩
  cases r <;> rfl

/-- C7: a valid Converted message whose downloaded artifacts fail
image-quality validation is not aborted: vendor classification still
determines the outgoing vendor type, the original source is still
archived under its unchanged relative path, and the Classified message
carrying the computed average quality score is still published exactly
once. -/
theorem c7_quality_gate_informational (env : ClassifyEnv) (m : InvoiceConvertedMessage)
    (imgs : List Bytes) (total : Nat) (avg : Rat) (issues : List String) (uri : String)
    (hdec : env.decode = Except.ok m)
    (hdl : (downloadAll env.read env.parse m.converted_files).2 = Except.ok (imgs, total))
    (hval : env.validate_all_images imgs = (false, avg, issues))
    (hcopy : env.copyOutcome = Except.ok uri) :
    publishedClassified (handle_invoice_converted env).events
      = [InvoiceClassifiedMessage.mk m.source_file m.converted_files
          (env.classify_vendor m.source_file m.converted_files).vendor_type avg uri]
    ∧ countPublish (handle_invoice_converted env).events = 1
    ∧ (handle_invoice_converted env).events.countP Event.isCopy = 1
    ∧ Event.copy (env.parse m.source_file).1 (env.parse m.source_file).2
        env.archive_bucket (env.parse m.source_file).2
        ∈ (handle_invoice_converted env).events := by
  have htry := classifyTry_reduce env m imgs total false avg issues uri hdec hdl hval hcopy
  have hevs : (handle_invoice_converted env).events =
      (downloadAll env.read env.parse m.converted_files).1 ++
        ([Event.copy (env.parse m.source_file).1 (env.parse m.source_file).2
            env.archive_bucket (env.parse m.source_file).2] ++
          [Event.publish env.classified_topic (Published.classified
            (InvoiceClassifiedMessage.mk m.source_file m.converted_files
              (env.classify_vendor m.source_file m.converted_files).vendor_type
              avg uri))]) := by
    rw [classify_handle_events, htry]
  have hreads := downloadAll_all_read env.read env.parse m.converted_files
  have hnil := publishedClassified_nil_of_reads _ hreads
  have hp0 := countP_zero_of_reads (q := Event.isPublishEv) (fun b p => rfl) _ hreads
  have hc0 := countP_zero_of_reads (q := Event.isCopy) (fun b p => rfl) _ hreads
  refine ⟨?_, ?_, ?_, ?_⟩
  · rw [hevs, publishedClassified_append, hnil]
    rfl
  · rw [hevs]
    simp [countPublish, List.countP_append, List.countP_cons, hp0, Event.isPublishEv,
      Event.isCopy]
  · rw [hevs]
    simp [List.countP_append, List.countP_cons, hc0, Event.isPublishEv, Event.isCopy]
  · rw [hevs]
    simp [List.mem_append]

/-- C7 witness: the informational quality gate instantiated on a
concrete run whose validation is negative. -/
theorem c7_quality_gate_informational_witness :
    publishedClassified (handle_invoice_converted c7env).events
      = [InvoiceClassifiedMessage.mk sampleConverted.source_file
          sampleConverted.converted_files
          (c7env.classify_vendor sampleConverted.source_file
            sampleConverted.converted_files).vendor_type 0 "gs://archive/sub/a.tif"]
    ∧ countPublish (handle_invoice_converted c7env).events = 1
    ∧ (handle_invoice_converted c7env).events.countP Event.isCopy = 1
    ∧ Event.copy (c7env.parse sampleConverted.source_file).1
        (c7env.parse sampleConverted.source_file).2
        c7env.archive_bucket (c7env.parse sampleConverted.source_file).2
        ∈ (handle_invoice_converted c7env).events :=
  c7_quality_gate_informational c7env sampleConverted [[7, 7]] 2 0 ["blur"]
    "gs://archive/sub/a.tif" rfl rfl rfl rfl
